import Mathlib

/-!
Verification development for the `teamscale_client` Python library
(file `teamscale_client/teamscale_client.py`).

The library is a single class `TeamscaleClient` wrapping HTTP PUT requests.
We shallowly embed it: Python values that may be `None` are `Option String`;
the HTTP library (`requests.put`) is an injected transport function from a
request record to a response record; the file system (`open`) and the JSON
library (`json.load`) are injected functions as well; a Python exception is
an `Except` error.  Each client method that performs a request also returns
the list of requests it issued, so that "issues exactly one PUT" is a
provable statement.  Methods never assign to `self` after `__init__`; the
state-passing translation of each method therefore returns the unchanged
client as its post-state, which the `..._call` variants make explicit.
-/

/-- `requests.auth.HTTPBasicAuth(username, password)`: stores the two
credential values verbatim (its constructor performs no validation). -/
structure HTTPBasicAuth where
  username : Option String
  password : Option String
deriving Repr, DecidableEq

/-- The fields assigned by `TeamscaleClient.__init__`:
`self.url`, `self.username`, `self.auth_header`, `self.project`. -/
structure TeamscaleClient where
  url : Option String
  username : Option String
  auth_header : HTTPBasicAuth
  project : Option String
deriving Repr, DecidableEq

/-- A raised Python exception, as produced by this library or by the
libraries it delegates to. -/
inductive PyError where
  | exception (msg : String)
  | ioError (msg : String)
  | jsonDecodeError (msg : String)
deriving Repr, DecidableEq

/-- The value produced by evaluating `TeamscaleClient(url, username,
password, project)`: the four assignments of `__init__`. -/
def TeamscaleClient.mkClient (url username password project : Option String) :
    TeamscaleClient :=
  ⟨url, username, ⟨username, password⟩, project⟩

/-- `TeamscaleClient.__init__` as a fallible construction step.  The body is
four attribute assignments and a `HTTPBasicAuth` construction, none of which
can raise, so the translation always returns `.ok`. -/
def TeamscaleClient.init (url username password project : Option String) :
    Except PyError TeamscaleClient :=
  .ok (TeamscaleClient.mkClient url username password project)

/-- Python `"%s" % v` rendering of a possibly-`None` value. -/
def pyStrOf : Option String → String
  | none => "None"
  | some s => s

/-- `get_project_service_url`: `"%s/p/%s/%s/" % (self.url, self.project,
service_name)`.  Pure string formatting. -/
def TeamscaleClient.get_project_service_url (c : TeamscaleClient)
    (service_name : String) : String :=
  pyStrOf c.url ++ "/p/" ++ pyStrOf c.project ++ "/" ++ service_name ++ "/"

/-- A query-parameter value: Python passes an `int` for `t` and strings for
the other keys. -/
inductive ParamValue where
  | int (n : Int)
  | str (s : String)
deriving Repr, DecidableEq

/-- The part of `requests.Response` this library reads: `status_code` and
`text`. -/
structure Response where
  status_code : Nat
  text : String
deriving Repr, DecidableEq

/-- The HTTP request handed to `requests.put`, with body type `α`
(the caller-supplied JSON payload is opaque to the client). -/
structure Request (α : Type) where
  method : String
  url : String
  params : List (String × ParamValue)
  body : α
  headers : List (String × String)
  auth : HTTPBasicAuth
deriving Repr, DecidableEq

/-- The request built by `put`: `requests.put(url, params=parameters,
json=json, headers={Content-Type: application/json}, auth=self.auth_header)`. -/
def TeamscaleClient.mkPutRequest (c : TeamscaleClient) (url : String)
    (json : α) (parameters : List (String × ParamValue)) : Request α :=
  ⟨"PUT", url, parameters, json, [("Content-Type", "application/json")], c.auth_header⟩

/-- `put`: sends one PUT via the transport; on a non-200 status raises
`Exception("ERROR: PUT "+url+": {}:{}".format(response.status_code,
response.text))`, otherwise returns the response.  The first component is
the list of requests issued (always exactly the one built). -/
def TeamscaleClient.put (c : TeamscaleClient) (transport : Request α → Response)
    (url : String) (json : α) (parameters : List (String × ParamValue)) :
    List (Request α) × Except PyError Response :=
  let response := transport (c.mkPutRequest url json parameters)
  if response.status_code ≠ 200 then
    ([c.mkPutRequest url json parameters],
      .error (.exception ("ERROR: PUT " ++ url ++ ": " ++
        toString response.status_code ++ ":" ++ response.text)))
  else
    ([c.mkPutRequest url json parameters], .ok response)

/-- `_upload_external_data`: builds the service URL via
`get_project_service_url`, the parameter dict
`{t, message, partition, skip-session}`, and delegates to `put`. -/
def TeamscaleClient._upload_external_data (c : TeamscaleClient)
    (transport : Request α → Response) (service_name : String) (json_data : α)
    (timestamp : Int) (message partition : String) :
    List (Request α) × Except PyError Response :=
  let service_url := c.get_project_service_url service_name
  let parameters : List (String × ParamValue) :=
    [("t", .int timestamp), ("message", .str message),
     ("partition", .str partition), ("skip-session", .str "true")]
  c.put transport service_url json_data parameters

/-- `upload_findings`: delegates to `_upload_external_data` with service
name `add-external-findings`. -/
def TeamscaleClient.upload_findings (c : TeamscaleClient)
    (transport : Request α → Response) (findings : α) (timestamp : Int)
    (message partition : String) : List (Request α) × Except PyError Response :=
  c._upload_external_data transport "add-external-findings" findings timestamp message partition

/-- `upload_metrics`: delegates to `_upload_external_data` with service
name `add-external-metrics`. -/
def TeamscaleClient.upload_metrics (c : TeamscaleClient)
    (transport : Request α → Response) (metrics : α) (timestamp : Int)
    (message partition : String) : List (Request α) × Except PyError Response :=
  c._upload_external_data transport "add-external-metrics" metrics timestamp message partition

/-- A parsed JSON document, as returned by `json.load`. -/
inductive JsonValue where
  | null
  | bool (b : Bool)
  | num (n : Int)
  | str (s : String)
  | arr (xs : List JsonValue)
  | obj (fields : List (String × JsonValue))

/-- `read_json_from_file`: `open(file_path)` (modelled by `fs`, mapping a
path to its contents or an I/O error) followed by `json.load` (modelled by
`load`, mapping contents to a parsed document or a decode error); returns
the parsed data, propagating either failure. -/
def TeamscaleClient.read_json_from_file (_c : TeamscaleClient)
    (fs : String → Except PyError String)
    (load : String → Except PyError JsonValue)
    (file_path : String) : Except PyError JsonValue := do
  let json_file ← fs file_path
  let json_data ← load json_file
  return json_data

/-! State-passing translations: each method returns its answer together with
the post-call client.  No method body assigns to `self`, so the post-call
client is the receiver itself. -/

/-- `put` with its post-call client state. -/
def TeamscaleClient.put_call (c : TeamscaleClient) (transport : Request α → Response)
    (url : String) (json : α) (parameters : List (String × ParamValue)) :
    (List (Request α) × Except PyError Response) × TeamscaleClient :=
  (c.put transport url json parameters, c)

/-- `_upload_external_data` with its post-call client state. -/
def TeamscaleClient.upload_external_data_call (c : TeamscaleClient)
    (transport : Request α → Response) (service_name : String) (json_data : α)
    (timestamp : Int) (message partition : String) :
    (List (Request α) × Except PyError Response) × TeamscaleClient :=
  (c._upload_external_data transport service_name json_data timestamp message partition, c)

/-- `upload_findings` with its post-call client state. -/
def TeamscaleClient.upload_findings_call (c : TeamscaleClient)
    (transport : Request α → Response) (findings : α) (timestamp : Int)
    (message partition : String) :
    (List (Request α) × Except PyError Response) × TeamscaleClient :=
  (c.upload_findings transport findings timestamp message partition, c)

/-- `upload_metrics` with its post-call client state. -/
def TeamscaleClient.upload_metrics_call (c : TeamscaleClient)
    (transport : Request α → Response) (metrics : α) (timestamp : Int)
    (message partition : String) :
    (List (Request α) × Except PyError Response) × TeamscaleClient :=
  (c.upload_metrics transport metrics timestamp message partition, c)

/-- `get_project_service_url` with its post-call client state. -/
def TeamscaleClient.get_project_service_url_call (c : TeamscaleClient)
    (service_name : String) : String × TeamscaleClient :=
  (c.get_project_service_url service_name, c)

/-- `read_json_from_file` with its post-call client state. -/
def TeamscaleClient.read_json_from_file_call (c : TeamscaleClient)
    (fs : String → Except PyError String)
    (load : String → Except PyError JsonValue)
    (file_path : String) : Except PyError JsonValue × TeamscaleClient :=
  (c.read_json_from_file fs load file_path, c)

/-- Example client used to instantiate theorems with hypotheses. -/
def clientEx : TeamscaleClient :=
  TeamscaleClient.mkClient (some "http://ts.example.com") (some "user")
    (some "secret") (some "proj1")

/-- Example transport answering every request with status 404, body
`not found`. -/
def transport404 : Request Unit → Response := fun _ => ⟨404, "not found"⟩

/-- Example file system: `data.json` holds a small JSON object, any other
path is missing. -/
def fsEx : String → Except PyError String := fun p =>
  if p = "data.json" then .ok "\x7b\"a\": 1\x7d"
  else .error (.ioError ("No such file or directory: " ++ p))

/-- Example JSON decoder: decodes the one document `fsEx` serves and rejects
everything else. -/
def loadEx : String → Except PyError JsonValue := fun s =>
  if s = "\x7b\"a\": 1\x7d" then .ok (.obj [("a", .num 1)])
  else .error (.jsonDecodeError "Expecting value: line 1 column 1 (char 0)")

/-- Reduction of `Except` bind on a success, used to evaluate the
translation of `with open(...)`. -/
theorem except_bind_ok (a : α) (f : α → Except PyError β) :
    (Except.ok a >>= f) = f a := rfl

/-- Reduction of `Except` bind on a failure: the error propagates. -/
theorem except_bind_error (e : PyError) (f : α → Except PyError β) :
    ((Except.error e : Except PyError α) >>= f) = Except.error e := rfl

/-- C1: for every client configuration and every (data, timestamp, message,
partition), `upload_findings` issues exactly one PUT to the project service
URL for `add-external-findings` and `upload_metrics` exactly one PUT to the
one for `add-external-metrics`, both with query parameters exactly
`t, message, partition, skip-session="true"` and the caller-supplied data as
body, unchanged. -/
theorem upload_requests_spec (c : TeamscaleClient) (transport : Request α → Response)
    (data : α) (timestamp : Int) (message partition : String) :
    (c.upload_findings transport data timestamp message partition).1 =
      [⟨"PUT", c.get_project_service_url "add-external-findings",
        [("t", .int timestamp), ("message", .str message),
         ("partition", .str partition), ("skip-session", .str "true")],
        data, [("Content-Type", "application/json")], c.auth_header⟩] ∧
    (c.upload_metrics transport data timestamp message partition).1 =
      [⟨"PUT", c.get_project_service_url "add-external-metrics",
        [("t", .int timestamp), ("message", .str message),
         ("partition", .str partition), ("skip-session", .str "true")],
        data, [("Content-Type", "application/json")], c.auth_header⟩] := by
  constructor <;>
    simp [TeamscaleClient.upload_findings, TeamscaleClient.upload_metrics,
      TeamscaleClient._upload_external_data, TeamscaleClient.put,
      TeamscaleClient.mkPutRequest] <;>
    split <;> rfl

/-- C2: `put` returns the transport's response unmodified exactly when its
status code is 200; on any other status it raises an exception whose message
is `ERROR: PUT ` ++ url ++ `: ` ++ status ++ `:` ++ body text. -/
theorem put_response_spec (c : TeamscaleClient) (transport : Request α → Response)
    (url : String) (json : α) (parameters : List (String × ParamValue)) :
    ((c.put transport url json parameters).2 =
        .ok (transport (c.mkPutRequest url json parameters)) ↔
      (transport (c.mkPutRequest url json parameters)).status_code = 200) ∧
    ((transport (c.mkPutRequest url json parameters)).status_code ≠ 200 →
      (c.put transport url json parameters).2 =
        .error (.exception ("ERROR: PUT " ++ url ++ ": " ++
          toString (transport (c.mkPutRequest url json parameters)).status_code ++
          ":" ++ (transport (c.mkPutRequest url json parameters)).text))) := by
  by_cases h : (transport (c.mkPutRequest url json parameters)).status_code = 200 <;>
    simp [TeamscaleClient.put, h]

/-- Witness for C2: at status 404 with body `not found`, `put` raises the
exception with the documented message. -/
theorem put_response_spec_witness :
    (404 : Nat) ≠ 200 ∧
    (clientEx.put transport404 "http://u/" () []).2 =
      .error (.exception "ERROR: PUT http://u/: 404:not found") := by
  refine ⟨by decide, ?_⟩
  have h := (put_response_spec clientEx transport404 "http://u/" () []).2 (by decide)
  rw [h]
  rfl

/-- C3: `get_project_service_url` returns exactly
url ++ `/p/` ++ project ++ `/` ++ service_name ++ `/`; in particular, with
url `http://ts.example.com` and project `proj1` it maps
`add-external-metrics` to `http://ts.example.com/p/proj1/add-external-metrics/`.
It is pure string formatting: its type involves no transport, no file
system and no error. -/
theorem get_project_service_url_spec (u username password p s : String) :
    (TeamscaleClient.mkClient (some u) (some username) (some password)
        (some p)).get_project_service_url s = u ++ "/p/" ++ p ++ "/" ++ s ++ "/" ∧
    (TeamscaleClient.mkClient (some "http://ts.example.com") (some username)
        (some password) (some "proj1")).get_project_service_url
        "add-external-metrics" =
      "http://ts.example.com/p/proj1/add-external-metrics/" :=
  ⟨rfl, rfl⟩

/-- Counterexample to C4: constructing a client with every required
configuration value absent (Python `None`) succeeds — `__init__` performs no
check and nothing in its body can raise. -/
theorem init_absent_values_succeed_cex :
    TeamscaleClient.init none none none none =
      .ok ⟨none, none, ⟨none, none⟩, none⟩ := rfl

/-- C4 (amended): construction never fails, even when required configuration
values are absent; the constructor stores whatever values it is given and
any failure caused by missing configuration surfaces only later, when a
request is made. -/
theorem init_never_fails (url username password project : Option String) :
    TeamscaleClient.init url username password project =
      .ok ⟨url, username, ⟨username, password⟩, project⟩ := rfl

/-- C5: `_upload_external_data` is exactly `put` applied to the URL built by
`get_project_service_url` and the four upload parameters: it returns
whatever `put` returns, and in particular any failure of `put` is the
failure of `_upload_external_data`, unchanged. -/
theorem upload_external_data_delegates (c : TeamscaleClient)
    (transport : Request α → Response) (service_name : String) (json_data : α)
    (timestamp : Int) (message partition : String) :
    c._upload_external_data transport service_name json_data timestamp message partition =
      c.put transport (c.get_project_service_url service_name) json_data
        [("t", .int timestamp), ("message", .str message),
         ("partition", .str partition), ("skip-session", .str "true")] := rfl

/-- C6: every request issued by `put` — and hence by both upload operations —
carries the header `Content-Type: application/json` and the HTTP basic
authentication credential built from the username and password supplied at
construction. -/
theorem requests_carry_header_and_auth (url0 username password project : Option String)
    (transport : Request α → Response) (u : String) (j : α)
    (ps : List (String × ParamValue)) (data : α) (timestamp : Int)
    (message partition : String) :
    (((TeamscaleClient.mkClient url0 username password project).put transport u j ps).1.map
        (fun r => (r.headers, r.auth))) =
      [([("Content-Type", "application/json")], ⟨username, password⟩)] ∧
    (((TeamscaleClient.mkClient url0 username password project).upload_findings transport
        data timestamp message partition).1.map (fun r => (r.headers, r.auth))) =
      [([("Content-Type", "application/json")], ⟨username, password⟩)] ∧
    (((TeamscaleClient.mkClient url0 username password project).upload_metrics transport
        data timestamp message partition).1.map (fun r => (r.headers, r.auth))) =
      [([("Content-Type", "application/json")], ⟨username, password⟩)] := by
  refine ⟨?_, ?_, ?_⟩ <;>
    simp [TeamscaleClient.put, TeamscaleClient.upload_findings,
      TeamscaleClient.upload_metrics, TeamscaleClient._upload_external_data,
      TeamscaleClient.mkPutRequest, TeamscaleClient.mkClient] <;>
    split <;> rfl

/-- C7: `read_json_from_file` returns the parse of the file's full contents
when the file opens and parses, and fails with the underlying error when the
file is missing or its content is not valid JSON. -/
theorem read_json_from_file_spec (c : TeamscaleClient)
    (fs : String → Except PyError String)
    (load : String → Except PyError JsonValue) (path : String) :
    (∀ s j, fs path = .ok s → load s = .ok j →
      c.read_json_from_file fs load path = .ok j) ∧
    (∀ e, fs path = .error e → c.read_json_from_file fs load path = .error e) ∧
    (∀ s e, fs path = .ok s → load s = .error e →
      c.read_json_from_file fs load path = .error e) := by
  refine ⟨?_, ?_, ?_⟩
  · intro s j hfs hload
    unfold TeamscaleClient.read_json_from_file
    rw [hfs, except_bind_ok, hload, except_bind_ok]
    rfl
  · intro e hfs
    unfold TeamscaleClient.read_json_from_file
    rw [hfs, except_bind_error]
  · intro s e hfs hload
    unfold TeamscaleClient.read_json_from_file
    rw [hfs, except_bind_ok, hload, except_bind_error]

/-- Witness for C7: a file containing the object with field `a` mapped to 1
is read back as exactly that mapping, and a missing file fails with the
underlying I/O error. -/
theorem read_json_from_file_spec_witness :
    clientEx.read_json_from_file fsEx loadEx "data.json" =
      .ok (.obj [("a", .num 1)]) ∧
    clientEx.read_json_from_file fsEx loadEx "missing.json" =
      .error (.ioError "No such file or directory: missing.json") := by
  constructor
  · exact (read_json_from_file_spec clientEx fsEx loadEx "data.json").1
      "\x7b\"a\": 1\x7d" (.obj [("a", .num 1)]) rfl rfl
  · exact (read_json_from_file_spec clientEx fsEx loadEx "missing.json").2.1
      (.ioError "No such file or directory: missing.json") rfl

/-- C8: no operation mutates the client: the post-call client state of every
method equals the receiver, for all arguments — in particular also when the
transport answers with a failing status or the file system or parser fails. -/
theorem client_state_unchanged (c : TeamscaleClient)
    (transport : Request α → Response) (u : String) (j : α)
    (ps : List (String × ParamValue)) (service_name : String) (data : α)
    (timestamp : Int) (message partition : String)
    (fs : String → Except PyError String)
    (load : String → Except PyError JsonValue) (path : String) :
    (c.put_call transport u j ps).2 = c ∧
    (c.upload_external_data_call transport service_name data timestamp message partition).2 = c ∧
    (c.upload_findings_call transport data timestamp message partition).2 = c ∧
    (c.upload_metrics_call transport data timestamp message partition).2 = c ∧
    (c.get_project_service_url_call service_name).2 = c ∧
    (c.read_json_from_file_call fs load path).2 = c :=
  ⟨rfl, rfl, rfl, rfl, rfl, rfl⟩

/-- C9: the two upload operations are `_upload_external_data` at the two
constant service names, and the requests they produce are identical except
for the service-name segment of the URL: same method, same parameters, same
body, same headers, same credential. -/
theorem uploads_differ_only_in_service_name (c : TeamscaleClient)
    (transport : Request α → Response) (data : α) (timestamp : Int)
    (message partition : String) :
    c.upload_findings transport data timestamp message partition =
      c._upload_external_data transport "add-external-findings" data timestamp message partition ∧
    c.upload_metrics transport data timestamp message partition =
      c._upload_external_data transport "add-external-metrics" data timestamp message partition ∧
    (c.upload_findings transport data timestamp message partition).1 =
      [c.mkPutRequest (c.get_project_service_url "add-external-findings") data
        [("t", .int timestamp), ("message", .str message),
         ("partition", .str partition), ("skip-session", .str "true")]] ∧
    (c.upload_metrics transport data timestamp message partition).1 =
      [c.mkPutRequest (c.get_project_service_url "add-external-metrics") data
        [("t", .int timestamp), ("message", .str message),
         ("partition", .str partition), ("skip-session", .str "true")]] := by
  refine ⟨rfl, rfl, ?_, ?_⟩ <;>
    simp [TeamscaleClient.upload_findings, TeamscaleClient.upload_metrics,
      TeamscaleClient._upload_external_data, TeamscaleClient.put] <;>
    split <;> rfl

/-- C10: the constructor validates nothing and performs no I/O: for every
choice of string arguments, empty strings included, construction succeeds
and stores url, username and project verbatim together with the basic-auth
credential built from username and password. -/
theorem init_stores_verbatim (url username password project : String) :
    TeamscaleClient.init (some url) (some username) (some password) (some project) =
      .ok ⟨some url, some username, ⟨some username, some password⟩, some project⟩ := rfl
